import Mathlib

set_option maxRecDepth 100000

/-!
Shallow embedding of the toolkit-ai response-generation and validation
pipeline (dist/index.js and src/tools/NpmInfo.ts), together with proofs of
the specified properties.  External collaborators (the hosted model, the
registry backends, the code beautifier, the template renderer, casing and
slug libraries) are represented either by explicit parameters or by
definitions modelled from the specification, as documented at each site.
-/

/-- JSON values as produced by the JS builtin JSON.parse.  Numeric literals
are kept as their source token; the toolkit never computes with numbers. -/
inductive Json where
  | null : Json
  | bool : Bool → Json
  | num : String → Json
  | str : String → Json
  | arr : List Json → Json
  | obj : List (String × Json) → Json

/-- Whitespace accepted between JSON tokens (space, tab, newline, return). -/
def isJsonWs (c : Char) : Bool :=
  c = ' ' || c = '\t' || c = '\n' || c = '\r'

/-- Drop inter-token whitespace. -/
def skipWs (cs : List Char) : List Char :=
  cs.dropWhile isJsonWs

/-- Value of a hexadecimal digit, if the character is one. -/
def hexVal (c : Char) : Option Nat :=
  if '0' ≤ c ∧ c ≤ '9' then some (c.toNat - 48)
  else if 'a' ≤ c ∧ c ≤ 'f' then some (c.toNat - 87)
  else if 'A' ≤ c ∧ c ≤ 'F' then some (c.toNat - 55)
  else none

/-- Body of a JSON string literal, after the opening quote.  The first
argument accumulates decoded characters in reverse.  Unescaped control
characters are rejected, as the JS parser rejects them. -/
def parseStringBody : List Char → List Char → Option (String × List Char)
  | acc, '"' :: rest => some (String.mk acc.reverse, rest)
  | acc, '\\' :: rest =>
    match rest with
    | '"' :: r => parseStringBody ('"' :: acc) r
    | '\\' :: r => parseStringBody ('\\' :: acc) r
    | '/' :: r => parseStringBody ('/' :: acc) r
    | 'b' :: r => parseStringBody (Char.ofNat 8 :: acc) r
    | 'f' :: r => parseStringBody (Char.ofNat 12 :: acc) r
    | 'n' :: r => parseStringBody ('\n' :: acc) r
    | 'r' :: r => parseStringBody ('\r' :: acc) r
    | 't' :: r => parseStringBody ('\t' :: acc) r
    | 'u' :: h1 :: h2 :: h3 :: h4 :: r =>
      match hexVal h1, hexVal h2, hexVal h3, hexVal h4 with
      | some a, some b, some c, some d =>
        parseStringBody (Char.ofNat (((a * 16 + b) * 16 + c) * 16 + d) :: acc) r
      | _, _, _, _ => none
    | _ => none
  | acc, c :: rest =>
    if c.toNat < 32 then none else parseStringBody (c :: acc) rest
  | _, [] => none

/-- Integer part of a JSON number: a single zero, or a nonzero digit
followed by digits. -/
def parseIntDigits : List Char → Option (List Char × List Char)
  | c :: r =>
    if c = '0' then some ([c], r)
    else if c.isDigit then
      match List.span Char.isDigit r with
      | (ds, rest) => some (c :: ds, rest)
    else none
  | [] => none

/-- Optional fraction part of a JSON number; a dot must be followed by at
least one digit. -/
def parseFracPart : List Char → Option (List Char × List Char)
  | '.' :: r =>
    match List.span Char.isDigit r with
    | ([], _) => none
    | (ds, rest) => some ('.' :: ds, rest)
  | cs => some ([], cs)

/-- Optional exponent part of a JSON number. -/
def parseExpPart : List Char → Option (List Char × List Char)
  | c :: r =>
    if c = 'e' || c = 'E' then
      let (sgn, r2) : List Char × List Char :=
        match r with
        | s :: r' => if s = '+' || s = '-' then ([s], r') else ([], s :: r')
        | [] => ([], [])
      match List.span Char.isDigit r2 with
      | ([], _) => none
      | (ds, rest) => some (c :: (sgn ++ ds), rest)
    else some ([], c :: r)
  | [] => some ([], [])

/-- Full JSON number token, returned as its character sequence. -/
def parseNumberToken (cs : List Char) : Option (List Char × List Char) := do
  let (sgn, cs1) : List Char × List Char :=
    match cs with
    | '-' :: r => (['-'], r)
    | _ => ([], cs)
  let (ip, cs2) ← parseIntDigits cs1
  let (fp, cs3) ← parseFracPart cs2
  let (ep, cs4) ← parseExpPart cs3
  some (sgn ++ ip ++ fp ++ ep, cs4)

/-- Insertion into a JS object under construction: a repeated key overwrites
the earlier value in place, preserving first-insertion key order, exactly as
JS property assignment does while JSON.parse builds an object. -/
def jsObjInsert : List (String × Json) → String → Json → List (String × Json)
  | [], k, v => [(k, v)]
  | (k', v') :: rest, k, v =>
    if k' = k then (k', v) :: rest else (k', v') :: jsObjInsert rest k v

mutual

/-- One JSON value, by recursive descent with a fuel bound on nesting. -/
def parseVal : Nat → List Char → Option (Json × List Char)
  | 0, _ => none
  | fuel + 1, cs =>
    match skipWs cs with
    | [] => none
    | c :: rest =>
      if c = '"' then
        (parseStringBody [] rest).map fun p => (Json.str p.1, p.2)
      else if c = 't' then
        match rest with
        | 'r' :: 'u' :: 'e' :: r => some (Json.bool true, r)
        | _ => none
      else if c = 'f' then
        match rest with
        | 'a' :: 'l' :: 's' :: 'e' :: r => some (Json.bool false, r)
        | _ => none
      else if c = 'n' then
        match rest with
        | 'u' :: 'l' :: 'l' :: r => some (Json.null, r)
        | _ => none
      else if c = '[' then
        match skipWs rest with
        | ']' :: r => some (Json.arr [], r)
        | cs' => parseArrLoop fuel [] cs'
      else if c = '{' then
        match skipWs rest with
        | '}' :: r => some (Json.obj [], r)
        | cs' => parseObjLoop fuel [] cs'
      else
        (parseNumberToken (c :: rest)).map fun p => (Json.num (String.mk p.1), p.2)

/-- Elements of a non-empty JSON array, accumulated in reverse. -/
def parseArrLoop : Nat → List Json → List Char → Option (Json × List Char)
  | 0, _, _ => none
  | fuel + 1, acc, cs => do
    let (v, r) ← parseVal fuel cs
    match skipWs r with
    | ',' :: r2 => parseArrLoop fuel (v :: acc) r2
    | ']' :: r2 => some (Json.arr (v :: acc).reverse, r2)
    | _ => none

/-- Members of a non-empty JSON object. -/
def parseObjLoop : Nat → List (String × Json) → List Char → Option (Json × List Char)
  | 0, _, _ => none
  | fuel + 1, acc, cs =>
    match skipWs cs with
    | '"' :: r => do
      let (k, r1) ← parseStringBody [] r
      match skipWs r1 with
      | ':' :: r2 => do
        let (v, r3) ← parseVal fuel r2
        match skipWs r3 with
        | ',' :: r4 => parseObjLoop fuel (jsObjInsert acc k v) r4
        | '}' :: r4 => some (Json.obj (jsObjInsert acc k v), r4)
        | _ => none
      | _ => none
    | _ => none

end

/-- Model of the JS builtin JSON.parse: one JSON value surrounded only by
whitespace, or failure.  The fuel bound exceeds the maximal possible nesting
of the input. -/
def parseJson (s : String) : Option Json :=
  match parseVal (2 * s.length + 2) s.data with
  | some (j, rest) => if skipWs rest = [] then some j else none
  | none => none

/-- First-match lookup in a JS object's member list.  Members built by
jsObjInsert have unique keys, so this is JS property access. -/
def jsLookup {β : Type} : List (String × β) → String → Option β
  | [], _ => none
  | (k', v) :: rest, k => if k' = k then some v else jsLookup rest k

/-- Test for a JSON string value. -/
def Json.isStr : Json → Bool
  | Json.str _ => true
  | _ => false

/-- Test for a JSON object value; arrays are distinguished from objects, as
the zod record schema distinguishes them. -/
def Json.isObj : Json → Bool
  | Json.obj _ => true
  | _ => false

/-- String field accessor used by the schema model: present and a string. -/
def getStr? (kvs : List (String × Json)) (k : String) : Option String :=
  match jsLookup kvs k with
  | some (Json.str s) => some s
  | _ => none

/-- Object field accessor used by the schema model: present and an object.
Every member value of a parsed object already satisfies JsonValueSchema (the
zod union covers all JSON values), so the record check is exactly the object
check. -/
def getObj? (kvs : List (String × Json)) (k : String) : Option (List (String × Json)) :=
  match jsLookup kvs k with
  | some (Json.obj o) => some o
  | _ => none

/-- Validated shape of a model response, mirroring GeneratedToolSchema
(z.object of string name, string description, record inputSchema, record
outputSchema, string code).  A zod object schema strips unknown keys, so the
validated value carries exactly these five fields. -/
structure GeneratedTool where
  name : String
  description : String
  inputSchema : List (String × Json)
  outputSchema : List (String × Json)
  code : String

/-- Issues one field contributes to a zod error: a missing key reports
Required, a present key of the wrong type reports the expected type. -/
def fieldIssues (kvs : List (String × Json)) (key expected : String)
    (check : Json → Bool) : List (String × String) :=
  match jsLookup kvs key with
  | none => [(key, "Required")]
  | some v => if check v then [] else [(key, "Expected " ++ expected)]

/-- All issues GeneratedToolSchema reports for an object, in field order. -/
def generatedToolIssues (kvs : List (String × Json)) : List (String × String) :=
  fieldIssues kvs "name" "string" Json.isStr ++
  fieldIssues kvs "description" "string" Json.isStr ++
  fieldIssues kvs "inputSchema" "object" Json.isObj ++
  fieldIssues kvs "outputSchema" "object" Json.isObj ++
  fieldIssues kvs "code" "string" Json.isStr

/-- Model of GeneratedToolSchema.parse: succeeds only when every required
field is present with the required type, otherwise throws the collected
issues; a non-object input is rejected at the root. -/
def GeneratedToolSchema.parse (j : Json) :
    Except (List (String × String)) GeneratedTool :=
  match j with
  | Json.obj kvs =>
    match getStr? kvs "name", getStr? kvs "description", getObj? kvs "inputSchema",
        getObj? kvs "outputSchema", getStr? kvs "code" with
    | some n, some d, some i, some o, some c => Except.ok ⟨n, d, i, o, c⟩
    | _, _, _, _, _ => Except.error (generatedToolIssues kvs)
  | _ => Except.error [("", "Expected object")]

/-- Lower-cased alphanumeric words of a name, accumulating the current word
in reverse; every run of other characters separates words. -/
def slugifyAux : List Char → List Char → List (List Char)
  | acc, [] => if acc = [] then [] else [acc.reverse]
  | acc, c :: cs =>
    if c.isAlpha || c.isDigit then slugifyAux (c.toLower :: acc) cs
    else if acc = [] then slugifyAux [] cs
    else acc.reverse :: slugifyAux [] cs

/-- Join words with single hyphens. -/
def joinHyphen : List (List Char) → List Char
  | [] => []
  | [w] => w
  | w :: ws => w ++ '-' :: joinHyphen ws

/-- Modelled from the spec: slug generation is an out-of-scope external
collaborator (spec section 1); per section 4.3 step 3 the slug is derived
deterministically from the name alone by lower-casing and turning whitespace
and punctuation runs into hyphens. -/
def slugify (s : String) : String :=
  String.mk (joinHyphen (slugifyAux [] s.data))


/-- Hexadecimal digit character, lower case, as JSON.stringify emits. -/
def hexDigitChar (n : Nat) : Char :=
  if n < 10 then Char.ofNat (48 + n) else Char.ofNat (87 + n)

/-- Escaping JSON.stringify applies inside string literals. -/
def escapeJsonChar (c : Char) : List Char :=
  if c = '"' then ['\\', '"']
  else if c = '\\' then ['\\', '\\']
  else if c = Char.ofNat 8 then ['\\', 'b']
  else if c = Char.ofNat 12 then ['\\', 'f']
  else if c = '\n' then ['\\', 'n']
  else if c = '\r' then ['\\', 'r']
  else if c = '\t' then ['\\', 't']
  else if c.toNat < 32 then
    ['\\', 'u', '0', '0', hexDigitChar (c.toNat / 16), hexDigitChar (c.toNat % 16)]
  else [c]

/-- Quoted JSON string literal. -/
def quoteJsonString (s : String) : String :=
  String.mk ('"' :: (s.data.map escapeJsonChar).flatten ++ ['"'])

mutual

/-- Compact JSON serialization, as JSON.stringify(v) renders it. -/
def jsonStringify : Json → String
  | Json.null => "null"
  | Json.bool true => "true"
  | Json.bool false => "false"
  | Json.num tok => tok
  | Json.str s => quoteJsonString s
  | Json.arr xs => "[" ++ stringifyElems xs ++ "]"
  | Json.obj kvs => "\x7b" ++ stringifyMembers kvs ++ "\x7d"

/-- Comma-joined array elements. -/
def stringifyElems : List Json → String
  | [] => ""
  | [x] => jsonStringify x
  | x :: y :: xs => jsonStringify x ++ "," ++ stringifyElems (y :: xs)

/-- Comma-joined object members. -/
def stringifyMembers : List (String × Json) → String
  | [] => ""
  | [(k, v)] => quoteJsonString k ++ ":" ++ jsonStringify v
  | (k, v) :: m :: kvs =>
    quoteJsonString k ++ ":" ++ jsonStringify v ++ "," ++ stringifyMembers (m :: kvs)

end

/-- Indentation of the given number of spaces. -/
def indentOf (n : Nat) : String :=
  String.mk (List.replicate n ' ')

mutual

/-- Pretty JSON serialization at a nesting depth, as JSON.stringify(v, null, 2)
renders it: two spaces of indentation per level. -/
def jsonStringifyPretty : Nat → Json → String
  | _, Json.null => "null"
  | _, Json.bool true => "true"
  | _, Json.bool false => "false"
  | _, Json.num tok => tok
  | _, Json.str s => quoteJsonString s
  | _, Json.arr [] => "[]"
  | d, Json.arr (x :: xs) =>
    "[\n" ++ prettyElems (d + 1) (x :: xs) ++ "\n" ++ indentOf (2 * d) ++ "]"
  | _, Json.obj [] => "\x7b\x7d"
  | d, Json.obj (m :: kvs) =>
    "\x7b\n" ++ prettyMembers (d + 1) (m :: kvs) ++ "\n" ++ indentOf (2 * d) ++ "\x7d"

/-- Pretty array elements, one per line. -/
def prettyElems : Nat → List Json → String
  | _, [] => ""
  | d, [x] => indentOf (2 * d) ++ jsonStringifyPretty d x
  | d, x :: y :: xs =>
    indentOf (2 * d) ++ jsonStringifyPretty d x ++ ",\n" ++ prettyElems d (y :: xs)

/-- Pretty object members, one per line. -/
def prettyMembers : Nat → List (String × Json) → String
  | _, [] => ""
  | d, [(k, v)] => indentOf (2 * d) ++ quoteJsonString k ++ ": " ++ jsonStringifyPretty d v
  | d, (k, v) :: m :: kvs =>
    indentOf (2 * d) ++ quoteJsonString k ++ ": " ++ jsonStringifyPretty d v ++ ",\n" ++
      prettyMembers d (m :: kvs)

end

/-- Model of the JS String.prototype.replaceAll with a single-character
pattern, over character lists. -/
def replaceAllChar (c : Char) (r : List Char) : List Char → List Char
  | [] => []
  | x :: xs => (if x = c then r else [x]) ++ replaceAllChar c r xs

/-- ToolFormatter.stringifyJsonSchema: pretty-print the schema (or null when
absent) with two-space indentation, then indent every line two further
spaces via replaceAll of the newline. -/
def ToolFormatter.stringifyJsonSchema (jsonSchema : Option Json) : String :=
  String.mk (replaceAllChar '\n' ['\n', ' ', ' ']
    (jsonStringifyPretty 0 (jsonSchema.getD Json.null)).data)

/-- Period normalization at the head of toLangChainDescription: the source
appends a dot when the one-character slice at the end differs from it. -/
def withTrailingPeriod (description : String) : String :=
  match description.data.getLast? with
  | some '.' => description
  | _ => description ++ "."

/-- ToolFormatter.toLangChainDescription: normalize the trailing period of
the description, append the fixed schema sentence, then append the schema
string with every open brace doubled and then every close brace doubled
(two sequential replaceAll passes, as in the source). -/
def ToolFormatter.toLangChainDescription (description inputSchemaString : String) : String :=
  withTrailingPeriod description ++
    " The action input should adhere to this JSON schema:\n" ++
    String.mk (replaceAllChar '}' ['}', '}']
      (replaceAllChar '{' ['{', '{'] inputSchemaString.data))

/-- Arguments the langchain-tool template is rendered with. -/
structure RenderInput where
  className : String
  toolCode : String
  toolSlug : String
  langchainDescription : String
  inputSchema : String
  outputSchema : String

/-- Modelled from the spec: code beautification (prettier), template
rendering (the langchain-tool template) and pascal-casing (camelcase) are
out-of-scope external collaborators (spec section 1); they enter the model
as an explicit environment.  Beautification may fail, which fails the whole
parse (spec section 4.3 step 4). -/
structure FormatEnv where
  format : String → Except String String
  render : RenderInput → String
  pascalCase : String → String

/-- GeneratedTool plus the slug derived from the name (spec section 3,
BaseTool).  Because schema validation strips unknown keys, the spread of the
validated tool after the slug field can never override the derived slug. -/
structure BaseTool extends GeneratedTool where
  slug : String

/-- BaseTool plus the rendered agent-framework code (spec section 3,
FormattedTool). -/
structure FormattedTool extends BaseTool where
  langChainCode : String

/-- ToolFormatter.toLangChain: beautify the code, then render the template
with the pascal-cased slug, the slug, the escaped description and the
serialized schemas. -/
def ToolFormatter.toLangChain (env : FormatEnv) (tool : BaseTool) : Except String String := do
  let toolCode ← env.format tool.code
  Except.ok (env.render
    { className := env.pascalCase tool.slug
      toolCode := toolCode
      toolSlug := tool.slug
      langchainDescription :=
        ToolFormatter.toLangChainDescription tool.description
          (jsonStringify (Json.obj tool.inputSchema))
      inputSchema := ToolFormatter.stringifyJsonSchema (some (Json.obj tool.inputSchema))
      outputSchema := ToolFormatter.stringifyJsonSchema (some (Json.obj tool.outputSchema)) })

/-- ToolFormatter.toolWithFormats: the tool with the rendered code added. -/
def ToolFormatter.toolWithFormats (env : FormatEnv) (tool : BaseTool) :
    Except String FormattedTool :=
  (ToolFormatter.toLangChain env tool).map fun lc => ⟨tool, lc⟩

/-- Error kinds surfaced by the toolkit (spec section 7); chainFailure
covers transport and output-shape errors propagated from a chain. -/
inductive ToolkitError where
  | chainFailure : String → ToolkitError
  | parseError : String → ToolkitError
  | schemaValidationError : List (String × String) → ToolkitError
  | formattingError : String → ToolkitError

/-- Toolkit.parseResponse: JSON-parse the raw response (a failure throws the
message embedding the raw text), validate against GeneratedToolSchema (a
failure throws the collected issues), add the slug derived from the name,
and format. -/
def Toolkit.parseResponse (env : FormatEnv) (responseString : String) :
    Except ToolkitError FormattedTool :=
  match parseJson responseString with
  | none =>
    Except.error (ToolkitError.parseError
      ("response could not be parsed as JSON: " ++ responseString))
  | some responseObject =>
    match GeneratedToolSchema.parse responseObject with
    | Except.error issues => Except.error (ToolkitError.schemaValidationError issues)
    | Except.ok generatedTool =>
      match ToolFormatter.toolWithFormats env ⟨generatedTool, slugify generatedTool.name⟩ with
      | Except.error e => Except.error (ToolkitError.formattingError e)
      | Except.ok tool => Except.ok tool

/-- The toolkit owns three chains; each chain's generate is a function from
the caller input to a raw response or a propagated failure. -/
structure Toolkit (α : Type) where
  generatorChain : α → Except String String
  executorChain : α → Except String String
  iteratorChain : α → Except String String

/-- Toolkit.generateTool: the ternary on withExecutor (default false in the
source) picks the generator chain when true and the executor chain when
false, then feeds the raw response to parseResponse. -/
def Toolkit.generateTool {α : Type} (tk : Toolkit α) (env : FormatEnv)
    (input : α) (withExecutor : Bool) : Except ToolkitError FormattedTool :=
  match (if withExecutor then tk.generatorChain input else tk.executorChain input) with
  | Except.error e => Except.error (ToolkitError.chainFailure e)
  | Except.ok responseString => Toolkit.parseResponse env responseString

/-- Toolkit.iterateTool: always the iterator chain, then parseResponse. -/
def Toolkit.iterateTool {α : Type} (tk : Toolkit α) (env : FormatEnv)
    (input : α) : Except ToolkitError FormattedTool :=
  match tk.iteratorChain input with
  | Except.error e => Except.error (ToolkitError.chainFailure e)
  | Except.ok responseString => Toolkit.parseResponse env responseString

/-- JS truthiness of an optional string: undefined and the empty string are
falsy, every other string is truthy. -/
def jsFalsy : Option String → Bool
  | none => true
  | some s => s = ""

/-- Conversion a JS template literal applies to an interpolated plain
object: the default Object toString yields the constant text
"[object Object]", independent of the object's contents. -/
def chainValuesToString (_ : List (String × String)) : String :=
  "[object Object]"

/-- Message of the error BaseChain.generate throws when the named output
value is not returned from the chain call. -/
def missingValueMessage (outputKey : String) (responseValues : List (String × String)) : String :=
  "value \"" ++ outputKey ++ "\" not returned from chain call, got values: " ++
    chainValuesToString responseValues

/-- BaseChain.generate.  The chain call itself is an external model
invocation, supplied as its outcome: either a thrown failure or the
response values (an object of string values).  The callback manager's
handler list is threaded explicitly; the console handler constructed for
this call is identified by a fresh id.  Mirroring the source order: the
handler is added (under logToConsole) before the call; a call failure or a
falsy output value throws before any removal; only the successful path
removes the handler. -/
def BaseChain.generate (logToConsole : Bool) (outputKey : String)
    (callResult : Except String (List (String × String)))
    (handlers : List Nat) (handler : Nat) :
    Except String String × List Nat :=
  let handlersAfterAdd := if logToConsole then handlers ++ [handler] else handlers
  match callResult with
  | Except.error e => (Except.error e, handlersAfterAdd)
  | Except.ok responseValues =>
    let responseString := jsLookup responseValues outputKey
    if jsFalsy responseString then
      (Except.error (missingValueMessage outputKey responseValues), handlersAfterAdd)
    else
      let handlersAfterRemove :=
        if logToConsole then handlersAfterAdd.filter (fun x => x != handler)
        else handlersAfterAdd
      (Except.ok (responseString.getD ""), handlersAfterRemove)

/-- Named output field SimpleChain.getOutputKey requires. -/
def SimpleChain.getOutputKey : String := "text"

/-- Named output field ExecutorChain.getOutputKey requires. -/
def ExecutorChain.getOutputKey : String := "output"

/-- Named output field IteratorChain.getOutputKey requires. -/
def IteratorChain.getOutputKey : String := "output"

/-- Registry packument as NpmInfo reads it: the readme may be absent. -/
structure Packument where
  readme : Option String

/-- NpmInfo's query operation.  The registry call is an external backend,
supplied as its outcome; a thrown failure is converted into an
Error-prefixed string, an absent or empty readme (JS falsy) into the
no-details text.  The function is total: it always returns a string. -/
def NpmInfo._call (result : Except String Packument) : String :=
  match result with
  | Except.ok results =>
    match results.readme with
    | some r => if r = "" then "No details available" else r
    | none => "No details available"
  | Except.error err => "Error: " ++ err

/-- One search hit as NpmSearch projects it: package name, description and
the final score (a numeric token). -/
structure NpmSearchResult where
  name : String
  description : String
  score : String

/-- JSON array NpmSearch serializes from its projected hits. -/
def npmSearchInfo (results : List NpmSearchResult) : Json :=
  Json.arr (results.map fun t =>
    Json.obj [("name", Json.str t.name), ("description", Json.str t.description),
      ("score", Json.num t.score)])

/-- NpmSearch's query operation.  The search call is an external backend,
supplied as its outcome; a thrown failure becomes an Error-prefixed string,
an empty result set the fixed no-results string, and otherwise the
JSON-serialized projection.  The function is total: it always returns a
string. -/
def NpmSearch._call (result : Except String (List NpmSearchResult)) : String :=
  match result with
  | Except.error err => "Error: " ++ err
  | Except.ok results =>
    if results.length < 1 then "Error: no results"
    else jsonStringify (npmSearchInfo results)

/-- Specification-side characterization of the escaping in section 4.3 step
4: every brace of the embedded schema text is doubled and every other
character is kept unchanged, in one pass. -/
def escapeBracesSpec : List Char → List Char
  | [] => []
  | c :: cs => (if c = '{' || c = '}' then [c, c] else [c]) ++ escapeBracesSpec cs

/-- Concrete formatting environment for witnesses: beautification succeeds
unchanged, rendering and pascal-casing are constant-shaped. -/
def constEnv : FormatEnv :=
  { format := fun s => Except.ok s
    render := fun _ => ""
    pascalCase := fun s => s }

/-- Concrete toolkit for the routing witness: each chain answers with a
distinct raw response. -/
def demoToolkit : Toolkit Unit :=
  { generatorChain := fun _ => Except.ok "simple response"
    executorChain := fun _ => Except.ok "executor response"
    iteratorChain := fun _ => Except.ok "iterator response" }

/-- Scenario response from the spec: a valid GeneratedTool-shaped JSON text
naming the tool CSV Parser. -/
def csvRaw : String :=
  "\x7b\"name\":\"CSV Parser\",\"description\":\"Parses CSV.\",\"inputSchema\":\x7b\x7d,\"outputSchema\":\x7b\x7d,\"code\":\"function f(x)\x7breturn x\x7d\"\x7d"

/-- Tool parseResponse yields for csvRaw under constEnv. -/
def tCsv : FormattedTool :=
  { name := "CSV Parser"
    description := "Parses CSV."
    inputSchema := []
    outputSchema := []
    code := "function f(x)\x7breturn x\x7d"
    slug := "csv-parser"
    langChainCode := "" }

/-- Valid response that additionally carries a slug key the model made up. -/
def slugRaw : String :=
  "\x7b\"slug\":\"evil\",\"name\":\"CSV Parser\",\"description\":\"Parses CSV files.\",\"inputSchema\":\x7b\x7d,\"outputSchema\":\x7b\x7d,\"code\":\"function g(x)\x7breturn x\x7d\"\x7d"

/-- Tool parseResponse yields for slugRaw under constEnv: the slug is the
one derived from the name, not the supplied one. -/
def tEvil : FormattedTool :=
  { name := "CSV Parser"
    description := "Parses CSV files."
    inputSchema := []
    outputSchema := []
    code := "function g(x)\x7breturn x\x7d"
    slug := "csv-parser"
    langChainCode := "" }

/-- Response that parses as a JSON object but lacks most required fields. -/
def missingRaw : String := "\x7b\"name\":\"x\"\x7d"


/-- Every tool parseResponse returns carries the slug derived from its name,
whatever formatting environment is in effect. -/
theorem parseResponse_ok_slug (env : FormatEnv) (raw : String) (t : FormattedTool)
    (h : Toolkit.parseResponse env raw = Except.ok t) : t.slug = slugify t.name := by
  unfold Toolkit.parseResponse at h
  cases hp : parseJson raw with
  | none => simp [hp] at h
  | some j =>
    simp only [hp] at h
    cases hg : GeneratedToolSchema.parse j with
    | error issues => simp [hg] at h
    | ok g =>
      simp only [hg] at h
      unfold ToolFormatter.toolWithFormats at h
      cases hl : ToolFormatter.toLangChain env ⟨g, slugify g.name⟩ with
      | error e => simp [hl, Except.map] at h
      | ok lc =>
        simp only [hl, Except.map] at h
        cases h
        rfl

/-- C1: Toolkit.generateTool routes on the boolean inverted against its
name: with useExecutor = false (the source default) it invokes the executor
chain's generate and with useExecutor = true the simple generator chain's
generate, in both cases passing the raw response string to parseResponse;
a chain failure propagates. -/
theorem generateTool_routing {α : Type} (tk : Toolkit α) (env : FormatEnv) (input : α) :
    (∀ s, tk.executorChain input = Except.ok s →
      Toolkit.generateTool tk env input false = Toolkit.parseResponse env s) ∧
    (∀ s, tk.generatorChain input = Except.ok s →
      Toolkit.generateTool tk env input true = Toolkit.parseResponse env s) ∧
    (∀ e, tk.executorChain input = Except.error e →
      Toolkit.generateTool tk env input false =
        Except.error (ToolkitError.chainFailure e)) ∧
    (∀ e, tk.generatorChain input = Except.error e →
      Toolkit.generateTool tk env input true =
        Except.error (ToolkitError.chainFailure e)) := by
  refine ⟨?_, ?_, ?_, ?_⟩ <;> intro s h <;> simp [Toolkit.generateTool, h]

/-- Witness for C1 on a concrete toolkit whose chains answer distinct
responses. -/
theorem generateTool_routing_witness :
    Toolkit.generateTool demoToolkit constEnv () false =
      Toolkit.parseResponse constEnv "executor response" ∧
    Toolkit.generateTool demoToolkit constEnv () true =
      Toolkit.parseResponse constEnv "simple response" :=
  ⟨(generateTool_routing demoToolkit constEnv ()).1 "executor response" rfl,
   (generateTool_routing demoToolkit constEnv ()).2.1 "simple response" rfl⟩

/-- C2: the slug of any tool parseResponse returns is a pure deterministic
function of the name alone — two accepted responses with equal names yield
equal slugs — and the CSV Parser scenario yields slug csv-parser. -/
theorem parseResponse_slug_deterministic (env : FormatEnv) :
    (∀ raw t, Toolkit.parseResponse env raw = Except.ok t → t.slug = slugify t.name) ∧
    (∀ raw₁ raw₂ t₁ t₂, Toolkit.parseResponse env raw₁ = Except.ok t₁ →
      Toolkit.parseResponse env raw₂ = Except.ok t₂ →
      t₁.name = t₂.name → t₁.slug = t₂.slug) ∧
    Toolkit.parseResponse constEnv csvRaw = Except.ok tCsv ∧
    tCsv.slug = "csv-parser" := by
  refine ⟨fun raw t h => parseResponse_ok_slug env raw t h, ?_, by rfl, by rfl⟩
  intro r1 r2 t1 t2 h1 h2 hn
  rw [parseResponse_ok_slug env r1 t1 h1, parseResponse_ok_slug env r2 t2 h2, hn]

/-- Witness for C2 at the CSV Parser scenario response. -/
theorem parseResponse_slug_deterministic_witness : tCsv.slug = slugify tCsv.name :=
  (parseResponse_slug_deterministic constEnv).1 csvRaw tCsv (by rfl)

/-- C3: a raw response that is not valid JSON makes parseResponse fail with
the ParseError kind whose message embeds the offending raw text, and with no
other error kind; the scenario text is rejected exactly so. -/
theorem parseResponse_nonjson_parseError (env : FormatEnv) :
    (∀ raw, parseJson raw = none →
      Toolkit.parseResponse env raw = Except.error (ToolkitError.parseError
        ("response could not be parsed as JSON: " ++ raw))) ∧
    parseJson "not json" = none ∧
    Toolkit.parseResponse constEnv "not json" = Except.error (ToolkitError.parseError
      "response could not be parsed as JSON: not json") := by
  refine ⟨?_, by rfl, by rfl⟩
  intro raw h
  unfold Toolkit.parseResponse
  rw [h]

/-- Witness for C3 at the scenario text. -/
theorem parseResponse_nonjson_parseError_witness :
    Toolkit.parseResponse constEnv "not json" = Except.error (ToolkitError.parseError
      ("response could not be parsed as JSON: " ++ "not json")) :=
  (parseResponse_nonjson_parseError constEnv).1 "not json" (by rfl)

/-- Schema validation of an object missing any of the five required fields
is the collected-issue error. -/
theorem schemaParse_error_of_missing (kvs : List (String × Json)) (field : String)
    (hfield : field ∈ ["name", "description", "inputSchema", "outputSchema", "code"])
    (hmissing : jsLookup kvs field = none) :
    GeneratedToolSchema.parse (Json.obj kvs) =
      Except.error (generatedToolIssues kvs) := by
  have hs : getStr? kvs field = none := by simp [getStr?, hmissing]
  have ho : getObj? kvs field = none := by simp [getObj?, hmissing]
  fin_cases hfield <;>
  · simp only [GeneratedToolSchema.parse]
    split
    · simp_all
    · rfl

/-- A missing required field contributes its Required issue. -/
theorem required_mem_issues (kvs : List (String × Json)) (field : String)
    (hfield : field ∈ ["name", "description", "inputSchema", "outputSchema", "code"])
    (hmissing : jsLookup kvs field = none) :
    (field, "Required") ∈ generatedToolIssues kvs := by
  fin_cases hfield <;> simp [generatedToolIssues, fieldIssues, hmissing]

/-- C4: for a response that parses as a JSON object missing any required
field of the GeneratedTool shape, parseResponse fails with the
SchemaValidationError carrying the collected issues, among them the
Required issue naming the missing field; no tool is returned. -/
theorem parseResponse_missing_field_schemaError (env : FormatEnv) (raw : String)
    (kvs : List (String × Json)) (field : String)
    (hparse : parseJson raw = some (Json.obj kvs))
    (hfield : field ∈ ["name", "description", "inputSchema", "outputSchema", "code"])
    (hmissing : jsLookup kvs field = none) :
    Toolkit.parseResponse env raw =
      Except.error (ToolkitError.schemaValidationError (generatedToolIssues kvs)) ∧
    (field, "Required") ∈ generatedToolIssues kvs := by
  refine ⟨?_, required_mem_issues kvs field hfield hmissing⟩
  unfold Toolkit.parseResponse
  simp only [hparse]
  rw [schemaParse_error_of_missing kvs field hfield hmissing]

/-- Witness for C4: an object carrying only a name lacks the code field. -/
theorem parseResponse_missing_field_schemaError_witness :
    Toolkit.parseResponse constEnv missingRaw =
      Except.error (ToolkitError.schemaValidationError
        (generatedToolIssues [("name", Json.str "x")])) ∧
    ("code", "Required") ∈ generatedToolIssues [("name", Json.str "x")] :=
  parseResponse_missing_field_schemaError constEnv missingRaw [("name", Json.str "x")]
    "code" (by rfl) (by simp) (by rfl)

/-- C5: the lookup tools' call operations are total string-valued functions
of the backend outcome — a thrown backend failure is absorbed into an
Error-prefixed string, a missing or empty readme into the no-details text,
an empty search result set into the no-results string, and success into the
normal result; no outcome raises. -/
theorem lookup_tools_never_raise :
    (∀ r : Except String Packument,
      (∃ e, r = Except.error e ∧ NpmInfo._call r = "Error: " ++ e) ∨
      NpmInfo._call r = "No details available" ∨
      (∃ doc, r = Except.ok ⟨some doc⟩ ∧ doc ≠ "" ∧ NpmInfo._call r = doc)) ∧
    (∀ r : Except String (List NpmSearchResult),
      (∃ e, r = Except.error e ∧ NpmSearch._call r = "Error: " ++ e) ∨
      (r = Except.ok [] ∧ NpmSearch._call r = "Error: no results") ∨
      (∃ results, r = Except.ok results ∧ results ≠ [] ∧
        NpmSearch._call r = jsonStringify (npmSearchInfo results))) := by
  constructor
  · intro r
    match r with
    | Except.error e => exact Or.inl ⟨e, rfl, rfl⟩
    | Except.ok ⟨none⟩ => exact Or.inr (Or.inl rfl)
    | Except.ok ⟨some doc⟩ =>
      by_cases hd : doc = ""
      · subst hd
        exact Or.inr (Or.inl (by simp [NpmInfo._call]))
      · exact Or.inr (Or.inr ⟨doc, rfl, hd, by simp [NpmInfo._call, hd]⟩)
  · intro r
    match r with
    | Except.error e => exact Or.inl ⟨e, rfl, rfl⟩
    | Except.ok [] => exact Or.inr (Or.inl ⟨rfl, rfl⟩)
    | Except.ok (x :: xs) =>
      refine Or.inr (Or.inr ⟨x :: xs, rfl, by simp, ?_⟩)
      simp [NpmSearch._call]

/-- C6 counterexample: with verbose logging enabled and a chain response
lacking the output field, generate completes (throwing the missing-value
error) with the console handler still attached to the callback manager,
refuting that it is never left attached. -/
theorem generate_handler_left_attached :
    (BaseChain.generate true "output" (Except.ok [("foo", "bar")]) [] 7).1 =
      Except.error (missingValueMessage "output" [("foo", "bar")]) ∧
    (BaseChain.generate true "output" (Except.ok [("foo", "bar")]) [] 7).2 = [7] ∧
    7 ∈ (BaseChain.generate true "output" (Except.ok [("foo", "bar")]) [] 7).2 := by
  refine ⟨by rfl, by rfl, by decide⟩

/-- C6 (amended): with verbose logging enabled, the console handler is
attached before the single chain call and detached after it only on the
successful path; when the chain call fails, or the output field is missing
or empty, generate throws with the handler still attached. -/
theorem generate_handler_lifecycle (outputKey : String) (vals : List (String × String))
    (hs : List Nat) (h : Nat) (hfresh : h ∉ hs) :
    (∀ s, jsLookup vals outputKey = some s → s ≠ "" →
      (BaseChain.generate true outputKey (Except.ok vals) hs h).2 = hs) ∧
    (∀ e, (BaseChain.generate true outputKey (Except.error e) hs h).2 = hs ++ [h]) ∧
    (jsLookup vals outputKey = none →
      (BaseChain.generate true outputKey (Except.ok vals) hs h).2 = hs ++ [h]) ∧
    (jsLookup vals outputKey = some "" →
      (BaseChain.generate true outputKey (Except.ok vals) hs h).2 = hs ++ [h]) := by
  refine ⟨?_, ?_, ?_, ?_⟩
  · intro s hlook hne
    simp only [BaseChain.generate, hlook, jsFalsy, if_true]
    rw [if_neg (by simpa using hne)]
    have h1 : hs.filter (fun x => x != h) = hs :=
      List.filter_eq_self.mpr fun a ha => by
        simp only [bne_iff_ne, ne_eq, decide_eq_true_eq]
        exact fun e => hfresh (e ▸ ha)
    simp [List.filter_append, h1]
  · intro e
    simp [BaseChain.generate]
  · intro hlook
    simp [BaseChain.generate, hlook, jsFalsy]
  · intro hlook
    simp [BaseChain.generate, hlook, jsFalsy]

/-- Witness for C6 (amended): success detaches, a chain failure leaves the
handler attached. -/
theorem generate_handler_lifecycle_witness :
    (BaseChain.generate true "output" (Except.ok [("output", "done")]) [] 7).2 = [] ∧
    (BaseChain.generate true "output" (Except.error "boom") [] 7).2 = [] ++ [7] :=
  ⟨(generate_handler_lifecycle "output" [("output", "done")] [] 7 (by simp)).1
      "done" rfl (by simp),
   (generate_handler_lifecycle "output" [("output", "done")] [] 7 (by simp)).2.1 "boom"⟩

/-- C7 counterexample: two chain responses with different received values,
both lacking the output field, produce the same error, so the error message
cannot echo the received response values (a JS template literal renders the
values object as the constant object placeholder). -/
theorem generate_error_values_not_echoed :
    (BaseChain.generate false "output" (Except.ok [("text", "hello")]) [] 0).1 =
      Except.error (missingValueMessage "output" [("text", "hello")]) ∧
    (BaseChain.generate false "output" (Except.ok [("text", "hello")]) [] 0).1 =
      (BaseChain.generate false "output" (Except.ok [("foo", "bar")]) [] 0).1 ∧
    ([("text", "hello")] : List (String × String)) ≠ [("foo", "bar")] := by
  refine ⟨by rfl, by rfl, by decide⟩

/-- C7 (amended): a chain response lacking the contractually required named
output field (text for SimpleChain, output for ExecutorChain and
IteratorChain) makes generate fail with an error naming the missing field;
the trailing rendering of the received values is the constant JS object
placeholder rather than their contents, and no value is returned. -/
theorem generate_missing_output_error (logToConsole : Bool) (outputKey : String)
    (vals : List (String × String)) (hs : List Nat) (h : Nat)
    (hmissing : jsLookup vals outputKey = none) :
    (BaseChain.generate logToConsole outputKey (Except.ok vals) hs h).1 =
      Except.error ("value \"" ++ outputKey ++
        "\" not returned from chain call, got values: " ++ "[object Object]") ∧
    (∀ s, (BaseChain.generate logToConsole outputKey (Except.ok vals) hs h).1 ≠
      Except.ok s) ∧
    SimpleChain.getOutputKey = "text" ∧ ExecutorChain.getOutputKey = "output" ∧
    IteratorChain.getOutputKey = "output" := by
  have hmain : (BaseChain.generate logToConsole outputKey (Except.ok vals) hs h).1 =
      Except.error ("value \"" ++ outputKey ++
        "\" not returned from chain call, got values: " ++ "[object Object]") := by
    simp [BaseChain.generate, hmissing, jsFalsy, missingValueMessage, chainValuesToString]
  refine ⟨hmain, ?_, rfl, rfl, rfl⟩
  intro s hcontra
  rw [hmain] at hcontra
  exact Except.noConfusion hcontra

/-- Witness for C7 (amended) at a concrete fieldless response. -/
theorem generate_missing_output_error_witness :
    (BaseChain.generate false "output" (Except.ok [("text", "hi")]) [] 0).1 =
      Except.error ("value \"" ++ "output" ++
        "\" not returned from chain call, got values: " ++ "[object Object]") :=
  (generate_missing_output_error false "output" [("text", "hi")] [] 0 (by rfl)).1

/-- C10: a chain response in which the expected output field is present but
equal to the empty string is treated exactly like a missing field — the
source tests the value's truthiness, and the empty string is falsy — so
generate throws the missing-value error instead of returning the empty
string. -/
theorem generate_empty_output_treated_missing (logToConsole : Bool) (outputKey : String)
    (vals : List (String × String)) (hs : List Nat) (h : Nat)
    (hempty : jsLookup vals outputKey = some "") :
    (BaseChain.generate logToConsole outputKey (Except.ok vals) hs h).1 =
      Except.error (missingValueMessage outputKey vals) ∧
    ∀ s, (BaseChain.generate logToConsole outputKey (Except.ok vals) hs h).1 ≠
      Except.ok s := by
  have hmain : (BaseChain.generate logToConsole outputKey (Except.ok vals) hs h).1 =
      Except.error (missingValueMessage outputKey vals) := by
    simp [BaseChain.generate, hempty, jsFalsy]
  refine ⟨hmain, fun s hcontra => ?_⟩
  rw [hmain] at hcontra
  exact Except.noConfusion hcontra

/-- Witness for C10: a present-but-empty text field still throws. -/
theorem generate_empty_output_treated_missing_witness :
    (BaseChain.generate false "text" (Except.ok [("text", "")]) [] 0).1 =
      Except.error (missingValueMessage "text" [("text", "")]) :=
  (generate_empty_output_treated_missing false "text" [("text", "")] [] 0 (by rfl)).1

/-- The single-character replaceAll distributes over list append. -/
theorem replaceAllChar_append (c : Char) (r a b : List Char) :
    replaceAllChar c r (a ++ b) = replaceAllChar c r a ++ replaceAllChar c r b := by
  induction a with
  | nil => rfl
  | cons x xs ih => simp [replaceAllChar, ih, List.append_assoc]

/-- The source's two sequential replaceAll passes (open braces doubled,
then close braces doubled) equal the one-pass brace doubling written from
the spec. -/
theorem replaceAll_braces (cs : List Char) :
    replaceAllChar '}' ['}', '}'] (replaceAllChar '{' ['{', '{'] cs) =
      escapeBracesSpec cs := by
  induction cs with
  | nil => rfl
  | cons x xs ih =>
    by_cases h1 : x = '{'
    · subst h1
      simp [replaceAllChar, escapeBracesSpec, replaceAllChar_append, ih]
    · by_cases h2 : x = '}'
      · subst h2
        simp [replaceAllChar, escapeBracesSpec, replaceAllChar_append, ih]
      · simp [replaceAllChar, escapeBracesSpec, replaceAllChar_append, ih, h1, h2]

/-- C8: the description embedded by the formatter has every brace of the
JSON-schema text doubled — so none of it can be read as a template
placeholder — while the description text itself is preserved up to the
trailing-period normalization, followed verbatim by the fixed schema
sentence. -/
theorem toLangChainDescription_escapes_braces (description inputSchemaString : String) :
    ToolFormatter.toLangChainDescription description inputSchemaString =
      withTrailingPeriod description ++
        " The action input should adhere to this JSON schema:\n" ++
        String.mk (escapeBracesSpec inputSchemaString.data) ∧
    (description.data.getLast? = some '.' →
      withTrailingPeriod description = description) ∧
    (description.data.getLast? ≠ some '.' →
      withTrailingPeriod description = description ++ ".") := by
  refine ⟨?_, ?_, ?_⟩
  · unfold ToolFormatter.toLangChainDescription
    rw [replaceAll_braces]
  · intro hdot
    unfold withTrailingPeriod
    rw [hdot]
    rfl
  · intro hdot
    unfold withTrailingPeriod
    split
    · simp_all
    · rfl

/-- Witness for C8 at a concrete description and schema text. -/
theorem toLangChainDescription_escapes_braces_witness :
    ToolFormatter.toLangChainDescription "Parses CSV" "\x7b\"a\":\x7b\x7d\x7d" =
      withTrailingPeriod "Parses CSV" ++
        " The action input should adhere to this JSON schema:\n" ++
        String.mk (escapeBracesSpec ("\x7b\"a\":\x7b\x7d\x7d" : String).data) ∧
    withTrailingPeriod "Parses CSV" = "Parses CSV" ++ "." :=
  ⟨(toLangChainDescription_escapes_braces "Parses CSV" "\x7b\"a\":\x7b\x7d\x7d").1,
   (toLangChainDescription_escapes_braces "Parses CSV" "\x7b\"a\":\x7b\x7d\x7d").2.2
     (by decide)⟩

/-- C9: a zod object schema strips unknown keys, so a slug field carried by
the response is discarded by validation — validation of an object with a
leading slug member equals validation without it — and the returned tool's
slug is always the one derived from the name; concretely, a response
supplying slug evil still yields the derived slug. -/
theorem parseResponse_ignores_supplied_slug (env : FormatEnv) :
    (∀ v kvs, GeneratedToolSchema.parse (Json.obj (("slug", v) :: kvs)) =
      GeneratedToolSchema.parse (Json.obj kvs)) ∧
    (∀ raw t, Toolkit.parseResponse env raw = Except.ok t → t.slug = slugify t.name) ∧
    Toolkit.parseResponse constEnv slugRaw = Except.ok tEvil ∧
    tEvil.slug = "csv-parser" ∧ tEvil.slug ≠ "evil" := by
  exact ⟨fun v kvs => rfl, fun raw t h => parseResponse_ok_slug env raw t h,
    by rfl, by rfl, by decide⟩

/-- Witness for C9 at the response that supplies a slug key. -/
theorem parseResponse_ignores_supplied_slug_witness : tEvil.slug = slugify tEvil.name :=
  (parseResponse_ignores_supplied_slug constEnv).2.1 slugRaw tEvil (by rfl)
